import Mathlib

/-!
Verification development for the papers ETL pipeline
(`src/pipeline.py`, `src/load_papers_from_json.py`, `src/data_quality_tests.py`).

The embedding models Python/JSON values (`PyVal`), the record normalizer
`process_paper`, the batched upsert `insert_papers_with_deduplication`
(split into `processAll`, `chunksOf`, `process_chunk`, `insert_batches`),
the SQL `ON CONFLICT` upsert (`upsertRow`), the two data-quality
validators (`run_data_quality_tests` from `pipeline.py`, `run_all_tests`
from `data_quality_tests.py`), and the orchestrator `PapersDataPipeline.run`.
-/

/-! ## Python/JSON value model -/

mutual

/-- A Python value as it appears in a decoded JSON record. -/
inductive PyVal where
  | null
  | bool (b : Bool)
  | int (n : Int)
  | float (q : Rat)
  | str (s : String)
  | dict (d : PyDict)
  | list (l : PyList)
deriving DecidableEq

/-- A Python dict with string keys (a raw record or nested sub-object). -/
inductive PyDict where
  | nil
  | cons (k : String) (v : PyVal) (rest : PyDict)
deriving DecidableEq

/-- A Python list of values. -/
inductive PyList where
  | nil
  | cons (v : PyVal) (rest : PyList)
deriving DecidableEq

end

/-- Key lookup in a dict: first binding wins (Python dicts have unique keys). -/
def PyDict.lookup : PyDict → String → Option PyVal
  | .nil, _ => Option.none
  | .cons k v rest, key => if k = key then some v else rest.lookup key

/-- Python `d.get(key, default)`. -/
def PyDict.get (d : PyDict) (key : String) (dflt : PyVal) : PyVal :=
  match d.lookup key with
  | some v => v
  | Option.none => dflt

/-- Whether a dict is empty (Python falsiness for dicts). -/
def PyDict.isNil : PyDict → Bool
  | .nil => true
  | .cons _ _ _ => false

/-- Whether a list is empty (Python falsiness for lists). -/
def PyList.isNil : PyList → Bool
  | .nil => true
  | .cons _ _ => false

/-- Python truthiness of a value. -/
def pyTruthy : PyVal → Bool
  | .null => false
  | .bool b => b
  | .int n => decide (n ≠ 0)
  | .float q => decide (q ≠ 0)
  | .str s => decide (s ≠ "")
  | .dict d => !d.isNil
  | .list l => !l.isNil

/-- Python `a or b`. -/
def pyOr (a b : PyVal) : PyVal :=
  if pyTruthy a then a else b

/-! ## String helpers modelling the Python `str` methods used by the source -/

/-- One pass of Python `s.replace(pat, '')`: delete every non-overlapping
occurrence of `pat`, scanning left to right.  The fuel argument (instantiated
with the length of the scanned list) keeps the recursion structural so that
concrete instances evaluate inside the kernel. -/
def dropMatches (pat : List Char) : Nat → List Char → List Char
  | _, [] => []
  | 0, l => l
  | fuel + 1, c :: cs =>
    if pat ≠ [] ∧ pat.isPrefixOf (c :: cs) then
      dropMatches pat fuel (List.drop pat.length (c :: cs))
    else
      c :: dropMatches pat fuel cs

/-- Python `s.replace(pat, '')` (all occurrences removed). -/
def pyReplaceEmpty (s pat : String) : String :=
  String.mk (dropMatches pat.toList s.toList.length s.toList)

/-- Python `s.startswith(pre)`. -/
def pyStartsWith (s pre : String) : Bool :=
  pre.toList.isPrefixOf s.toList

/-- URL prefix removed from the OpenAlex identifier field. -/
def openalexUrl : String := "https://openalex.org/"

/-- URL prefix removed from the DOI field. -/
def doiUrl : String := "https://doi.org/"

/-! ## Record normalizer (`process_paper`, `extract_doi`)

`process_paper` traverses an untrusted raw record; any attribute access on a
value of the wrong type raises in Python, which the embedding models with
`Except Unit`. -/

/-- Calling a `str` method on a value: succeeds only on strings
(`AttributeError` otherwise). -/
def asStr : PyVal → Except Unit String
  | .str s => Except.ok s
  | _ => Except.error ()

/-- Calling `.get(key, dflt)` on a value: succeeds only on dicts
(`AttributeError` otherwise). -/
def pyMethodGet (v : PyVal) (key : String) (dflt : PyVal) : Except Unit PyVal :=
  match v with
  | .dict d => Except.ok (d.get key dflt)
  | _ => Except.error ()

/-- The `x.get(key, dflt) if x else dflt` pattern used throughout
`process_paper` for every nested sub-object. -/
def condGet (v : PyVal) (key : String) (dflt : PyVal) : Except Unit PyVal :=
  if pyTruthy v then pyMethodGet v key dflt else pure dflt

/-- `extract_doi` from `pipeline.py` lines 368-376 / `load_papers_from_json.py`
lines 136-144: strip the DOI URL prefix when present; falsy DOI gives `None`. -/
def extract_doi (paper : PyDict) : Except Unit PyVal :=
  let doi := paper.get "doi" PyVal.null
  if pyTruthy doi then do
    let s ← asStr doi
    if pyStartsWith s doiUrl then
      pure (PyVal.str (pyReplaceEmpty s doiUrl))
    else
      pure (PyVal.str s)
  else
    pure PyVal.null

/-- The flat tuple returned by `process_paper`, fields in database-column
order.  Field values keep their dynamic (Python) type. -/
structure ProcessedPaper where
  openalex_id : PyVal
  doi : PyVal
  title : PyVal
  paper_type : PyVal
  publication_date : PyVal
  publication_year : PyVal
  primary_topic_name : PyVal
  primary_topic_score : PyVal
  subfield_name : PyVal
  field_name : PyVal
  domain_name : PyVal
  is_open_access : PyVal
  oa_status : PyVal
  cited_by_count : PyVal
  citation_percentile : PyVal
  is_top_1_percent : PyVal
  is_top_10_percent : PyVal
  citation_percentile_min : PyVal
  citation_percentile_max : PyVal
  fwci : PyVal
  countries_count : PyVal
  institutions_count : PyVal
deriving DecidableEq

/-- `process_paper` from `pipeline.py` lines 378-456 /
`load_papers_from_json.py` lines 147-225, statement by statement. -/
def process_paper (paper : PyDict) : Except Unit ProcessedPaper := do
  let ids ← asStr (paper.get "id" (PyVal.str ""))
  let openalex_id := PyVal.str (pyReplaceEmpty ids openalexUrl)
  let doi ← extract_doi paper
  let title := pyOr (paper.get "title" (PyVal.str "")) (paper.get "display_name" (PyVal.str ""))
  let paper_type := paper.get "type" PyVal.null
  let publication_date := paper.get "publication_date" PyVal.null
  let publication_year := paper.get "publication_year" PyVal.null
  let primary_topic := paper.get "primary_topic" (PyVal.dict PyDict.nil)
  let primary_topic_name ← condGet primary_topic "display_name" PyVal.null
  let primary_topic_score ← condGet primary_topic "score" PyVal.null
  let subfield ← condGet primary_topic "subfield" (PyVal.dict PyDict.nil)
  let subfield_name ← condGet subfield "display_name" PyVal.null
  let field ← condGet primary_topic "field" (PyVal.dict PyDict.nil)
  let field_name ← condGet field "display_name" PyVal.null
  let domain ← condGet primary_topic "domain" (PyVal.dict PyDict.nil)
  let domain_name ← condGet domain "display_name" PyVal.null
  let open_access := paper.get "open_access" (PyVal.dict PyDict.nil)
  let is_open_access ← condGet open_access "is_oa" (PyVal.bool false)
  let oa_status ← condGet open_access "oa_status" PyVal.null
  let cited_by_count := pyOr (paper.get "cited_by_count" (PyVal.int 0)) (PyVal.int 0)
  let citation_normalized := paper.get "citation_normalized_percentile" (PyVal.dict PyDict.nil)
  let citation_percentile ← condGet citation_normalized "value" PyVal.null
  let is_top_1_percent ← condGet citation_normalized "is_in_top_1_percent" (PyVal.bool false)
  let is_top_10_percent ← condGet citation_normalized "is_in_top_10_percent" (PyVal.bool false)
  let cited_by_percentile_year := paper.get "cited_by_percentile_year" (PyVal.dict PyDict.nil)
  let citation_percentile_min ← condGet cited_by_percentile_year "min" PyVal.null
  let citation_percentile_max ← condGet cited_by_percentile_year "max" PyVal.null
  let fwci := PyVal.null
  let countries_count := pyOr (paper.get "countries_distinct_count" (PyVal.int 0)) (PyVal.int 0)
  let institutions_count := pyOr (paper.get "institutions_distinct_count" (PyVal.int 0)) (PyVal.int 0)
  pure {
    openalex_id, doi, title, paper_type, publication_date, publication_year,
    primary_topic_name, primary_topic_score, subfield_name, field_name, domain_name,
    is_open_access, oa_status, cited_by_count, citation_percentile,
    is_top_1_percent, is_top_10_percent, citation_percentile_min, citation_percentile_max,
    fwci, countries_count, institutions_count }

/-! ## Normalization loop of `insert_papers_with_deduplication`

`pipeline.py` lines 507-528 / `load_papers_from_json.py` lines 300-321:
each record is processed under `try`; an exception or a falsy `processed[0]`
counts as a skip and the loop continues. -/

/-- The processing loop: returns the processed tuples (input order preserved)
and the skip count. -/
def processAll : List PyDict → List ProcessedPaper × Nat
  | [] => ([], 0)
  | r :: rest =>
    let acc := processAll rest
    match process_paper r with
    | Except.ok t =>
      if pyTruthy t.openalex_id then (t :: acc.1, acc.2) else (acc.1, acc.2 + 1)
    | Except.error _ => (acc.1, acc.2 + 1)

/-! ## Persisted table and the `ON CONFLICT` upsert

The `INSERT ... ON CONFLICT (openalex_id) DO UPDATE` statement
(`pipeline.py` lines 463-505): on a fresh key a row is created with
`created_at` and `updated_at` both set to the current timestamp (column
default resp. explicit `CURRENT_TIMESTAMP`); on conflict every non-key
column is overwritten from the excluded row and `updated_at` is refreshed,
while `created_at` is not in the update list. -/

/-- A persisted row: the inserted tuple plus the bookkeeping timestamps. -/
structure DbRow where
  payload : ProcessedPaper
  created_at : Nat
  updated_at : Nat
deriving DecidableEq

/-- The conflict key of a row (`openalex_id` column). -/
def rowKey (r : DbRow) : PyVal := r.payload.openalex_id

/-- Execute the upsert statement for one tuple at time `now`. -/
def upsertRow (now : Nat) (t : List DbRow) (p : ProcessedPaper) : List DbRow :=
  if ∃ r ∈ t, rowKey r = p.openalex_id then
    t.map fun r =>
      if rowKey r = p.openalex_id then
        { payload := p, created_at := r.created_at, updated_at := now }
      else r
  else
    t ++ [{ payload := p, created_at := now, updated_at := now }]

/-! ## Batched insertion with per-row fallback

`pipeline.py` lines 531-565 / `load_papers_from_json.py` lines 323-362:
`for i in range(0, len(processed_papers), batch_size)` slices consecutive
chunks; `executemany` commits a whole chunk in one transaction; on failure
the transaction is rolled back and every row of the chunk is retried in its
own transaction.  Whether the store accepts a row is modelled by the
predicate `ok`. -/

/-- The chunks visited by `range(0, len(l), bs)` with slice `l[i:i+bs]`.
(`bs = 0` would raise `ValueError` in Python; the claims only use
positive batch sizes.) -/
def chunksOf : Nat → List α → List (List α)
  | _, [] => []
  | 0, _ :: _ => []
  | bs + 1, x :: xs =>
    (x :: xs).take (bs + 1) :: chunksOf (bs + 1) ((x :: xs).drop (bs + 1))
termination_by _ l => l.length
decreasing_by simp [List.length_drop]; omega

/-- Process one chunk against the table: the whole-chunk `executemany`
succeeds iff the store accepts every row, committing all of them; otherwise
the transaction is rolled back and each row is retried individually, each
in its own transaction, so exactly the acceptable rows land and count. -/
def process_chunk (ok : ProcessedPaper → Bool) (now : Nat)
    (acc : List DbRow × Nat) (chunk : List ProcessedPaper) : List DbRow × Nat :=
  if chunk.all ok then
    (chunk.foldl (fun tb p => upsertRow now tb p) acc.1, acc.2 + chunk.length)
  else
    (chunk.foldl (fun tb p => if ok p then upsertRow now tb p else tb) acc.1,
     acc.2 + (chunk.filter ok).length)

/-- The batch-insertion loop: final table and `total_inserted`. -/
def insert_batches (ok : ProcessedPaper → Bool) (now : Nat) (bs : Nat)
    (t : List DbRow) (pp : List ProcessedPaper) : List DbRow × Nat :=
  (chunksOf bs pp).foldl (process_chunk ok now) (t, 0)

/-! ## Data-quality validation

The check queries read the SQL-typed columns of the `papers` table; the
table may also contain rows written by direct inserts that bypass the
normalizer, so every checked column is modelled at its SQL type. -/

/-- The columns of the `papers` table read by the check queries. -/
structure PaperRow where
  openalex_id : Option String
  doi : Option String
  title : Option String
  cited_by_count : Option Int
  countries_count : Option Int
  institutions_count : Option Int
  citation_percentile : Option Rat
  primary_topic_score : Option Rat
  fwci : Option Rat
deriving DecidableEq

/-- `COUNT(*) WHERE openalex_id IS NULL OR openalex_id = ''`. -/
def missing_openalex_count (t : List PaperRow) : Nat :=
  (t.filter fun r =>
    match r.openalex_id with
    | Option.none => true
    | some s => decide (s = "")).length

/-- `COUNT(*) WHERE title IS NULL OR title = ''`. -/
def missing_title_count (t : List PaperRow) : Nat :=
  (t.filter fun r =>
    match r.title with
    | Option.none => true
    | some s => decide (s = "")).length

/-- `COUNT(*) WHERE col < 0` for an integer column (SQL `NULL < 0` is not a
match). -/
def negative_int_count (col : PaperRow → Option Int) (t : List PaperRow) : Nat :=
  (t.filter fun r =>
    match col r with
    | some c => decide (c < 0)
    | Option.none => false).length

/-- `COUNT(*) WHERE col IS NOT NULL AND (col < 0.0 OR col > 1.0)`. -/
def out_of_range_count (col : PaperRow → Option Rat) (t : List PaperRow) : Nat :=
  (t.filter fun r =>
    match col r with
    | some q => decide (q < 0 ∨ 1 < q)
    | Option.none => false).length

/-- `COUNT(*) WHERE fwci IS NOT NULL AND fwci < 0`. -/
def negative_fwci_count (t : List PaperRow) : Nat :=
  (t.filter fun r =>
    match r.fwci with
    | some q => decide (q < 0)
    | Option.none => false).length

/-- Number of values occurring more than once in `vals` (the
`GROUP BY ... HAVING COUNT(*) > 1` subquery, counting groups). -/
def dup_group_count (vals : List String) : Nat :=
  (vals.dedup.filter fun v => decide (1 < vals.count v)).length

/-- `openalex_id` duplicate groups among non-null values. -/
def dup_openalex_count (t : List PaperRow) : Nat :=
  dup_group_count (t.filterMap fun r => r.openalex_id)

/-- `doi` duplicate groups among non-null, non-empty values. -/
def dup_doi_count (t : List PaperRow) : Nat :=
  dup_group_count ((t.filterMap fun r => r.doi).filter fun s => decide (s ≠ ""))

/-- The outcome of each check query against the store: the returned count,
or a raised exception (`Except.error`), e.g. when the table vanished. -/
structure Outcomes where
  missingOpenalexId : Except Unit Int
  missingTitle : Except Unit Int
  negCitedBy : Except Unit Int
  negCountries : Except Unit Int
  negInstitutions : Except Unit Int
  badCitationPercentile : Except Unit Int
  badTopicScore : Except Unit Int
  negFwci : Except Unit Int
  dupOpenalexId : Except Unit Int
  dupDoi : Except Unit Int

/-- The outcomes produced by actually running the ten check queries over an
in-memory table (no query errors). -/
def outcomesOfTable (t : List PaperRow) : Outcomes where
  missingOpenalexId := Except.ok (Int.ofNat (missing_openalex_count t))
  missingTitle := Except.ok (Int.ofNat (missing_title_count t))
  negCitedBy := Except.ok (Int.ofNat (negative_int_count (fun r => r.cited_by_count) t))
  negCountries := Except.ok (Int.ofNat (negative_int_count (fun r => r.countries_count) t))
  negInstitutions := Except.ok (Int.ofNat (negative_int_count (fun r => r.institutions_count) t))
  badCitationPercentile := Except.ok (Int.ofNat (out_of_range_count (fun r => r.citation_percentile) t))
  badTopicScore := Except.ok (Int.ofNat (out_of_range_count (fun r => r.primary_topic_score) t))
  negFwci := Except.ok (Int.ofNat (negative_fwci_count t))
  dupOpenalexId := Except.ok (Int.ofNat (dup_openalex_count t))
  dupDoi := Except.ok (Int.ofNat (dup_doi_count t))

/-- Result record built by `run_test` (both variants): pass flag, returned
count when the query succeeded, error flag otherwise.  All checks are run
with `expect_zero=True`. -/
structure TestResult where
  passed : Bool
  count : Option Int
  isError : Bool
deriving DecidableEq

/-- `run_test`: a query outcome to a test result; a query that raises is
reported as an error state with `passed = False`. -/
def runTest (o : Except Unit Int) : TestResult :=
  match o with
  | Except.ok c => { passed := decide (c = 0), count := some c, isError := false }
  | Except.error _ => { passed := false, count := Option.none, isError := true }

/-- `PapersDataPipeline.run_data_quality_tests` (`pipeline.py` lines
636-823): missing table returns 1; the un-guarded `SELECT COUNT(*)`
propagates a raised exception; tests 1-9 each increment `failed_tests` when
not passed; the DOI-duplication test is appended to the report but counted
as passed unconditionally; the return value is 0 iff `failed_tests = 0`. -/
def run_data_quality_tests (tableExists : Bool) (totalCount : Except Unit Int)
    (oc : Outcomes) : Except Unit (List TestResult × Nat) :=
  if tableExists = false then Except.ok ([], 1)
  else
    match totalCount with
    | Except.error e => Except.error e
    | Except.ok _ =>
      let strict := [runTest oc.missingOpenalexId, runTest oc.missingTitle,
        runTest oc.negCitedBy, runTest oc.negCountries, runTest oc.negInstitutions,
        runTest oc.badCitationPercentile, runTest oc.badTopicScore,
        runTest oc.negFwci, runTest oc.dupOpenalexId]
      let failed := (strict.filter fun r => !r.passed).length
      Except.ok (strict ++ [runTest oc.dupDoi], if failed = 0 then 0 else 1)

/-- `PapersDataValidator.run_all_tests` + `print_results`
(`data_quality_tests.py`): the initial connection/table block returns 1 on
error; then all ten tests run through the stateful `run_test`, which
increments `self.failed_tests` for EVERY test that does not pass - the
DOI-duplication test included - and `print_results` returns 0 iff
`failed_tests = 0`. -/
def run_all_tests (connOk tableExists : Bool) (oc : Outcomes) : Nat :=
  if connOk = false then 1
  else if tableExists = false then 1
  else
    let results := [runTest oc.missingOpenalexId, runTest oc.missingTitle,
      runTest oc.negCitedBy, runTest oc.negCountries, runTest oc.negInstitutions,
      runTest oc.badCitationPercentile, runTest oc.badTopicScore,
      runTest oc.negFwci, runTest oc.dupOpenalexId, runTest oc.dupDoi]
    if (results.filter fun r => !r.passed).length = 0 then 0 else 1

/-! ## Pipeline orchestrator (`PapersDataPipeline.run`, lines 829-874)

The interactions with the outside world (API fetch, DDL, connection
acquisition, per-row store acceptance, check-query outcomes) are supplied
by an environment record. -/

/-- External behaviour during one pipeline run. -/
structure RunEnv where
  fetched : Except Unit (List PyDict)
  setupOk : Bool
  connOk : Bool
  rowOk : ProcessedPaper → Bool
  now : Nat
  batchSize : Nat
  tableExistsForTests : Bool
  totalCount : Except Unit Int
  checks : Outcomes

/-- Observable outcome of a run: the process exit code, the final table,
whether the validator step was invoked, and whether any database work
(DDL or DML) was attempted at all. -/
structure RunResult where
  exitCode : Nat
  table : List DbRow
  validatorRan : Bool
  dbAccessed : Bool
deriving DecidableEq

/-- `PapersDataPipeline.run`: fetch; empty fetch returns 0 immediately;
then table setup, upload, and (unless skipped) the data-quality tests;
any exception is caught at the top level and yields exit code 1. -/
def pipelineRun (env : RunEnv) (skipTests : Bool) (table : List DbRow) : RunResult :=
  match env.fetched with
  | Except.error _ => { exitCode := 1, table, validatorRan := false, dbAccessed := false }
  | Except.ok [] => { exitCode := 0, table, validatorRan := false, dbAccessed := false }
  | Except.ok (r :: rs) =>
    if env.setupOk = false then
      { exitCode := 1, table, validatorRan := false, dbAccessed := true }
    else if env.connOk = false then
      { exitCode := 1, table, validatorRan := false, dbAccessed := true }
    else
      let processed := (processAll (r :: rs)).1
      let afterUpload := (insert_batches env.rowOk env.now env.batchSize table processed).1
      if skipTests then
        { exitCode := 0, table := afterUpload, validatorRan := false, dbAccessed := true }
      else
        match run_data_quality_tests env.tableExistsForTests env.totalCount env.checks with
        | Except.error _ =>
          { exitCode := 1, table := afterUpload, validatorRan := true, dbAccessed := true }
        | Except.ok (_, code) =>
          { exitCode := code, table := afterUpload, validatorRan := true, dbAccessed := true }

/-! ## Spec-side comparison definition and concrete inputs for witnesses -/

/-- The claim C5 reading of "identifier stripped of its known URL prefix"
(spec 4.1: "strip a known URL-prefix if present"): remove the prefix when
the identifier starts with it, otherwise leave the identifier unchanged.
Declared only to be compared against what `process_paper` actually does. -/
def specStripLeadingUrl (pre s : String) : String :=
  if pyStartsWith s pre then String.mk (s.toList.drop pre.toList.length) else s

/-- The tuple `process_paper` yields for a record whose only key is `id`
with string value `oid` (not URL-prefixed). -/
def bareTuple (oid : String) : ProcessedPaper where
  openalex_id := PyVal.str oid
  doi := PyVal.null
  title := PyVal.str ""
  paper_type := PyVal.null
  publication_date := PyVal.null
  publication_year := PyVal.null
  primary_topic_name := PyVal.null
  primary_topic_score := PyVal.null
  subfield_name := PyVal.null
  field_name := PyVal.null
  domain_name := PyVal.null
  is_open_access := PyVal.bool false
  oa_status := PyVal.null
  cited_by_count := PyVal.int 0
  citation_percentile := PyVal.null
  is_top_1_percent := PyVal.bool false
  is_top_10_percent := PyVal.bool false
  citation_percentile_min := PyVal.null
  citation_percentile_max := PyVal.null
  fwci := PyVal.null
  countries_count := PyVal.int 0
  institutions_count := PyVal.int 0

/-- A processed tuple distinguished by its `cited_by_count` value, used to
build concrete batches. -/
def samplePaper (n : Int) : ProcessedPaper :=
  { bareTuple "W" with cited_by_count := PyVal.int n }

/-- 150 concrete processed tuples, `cited_by_count` running 0..149. -/
def samplePapers : List ProcessedPaper :=
  (List.range 150).map fun k => samplePaper (Int.ofNat k)

/-- Store acceptance that rejects exactly the tuple with
`cited_by_count = 36` (position 36 of `samplePapers`, i.e. row 37). -/
def sampleOk (p : ProcessedPaper) : Bool :=
  decide (p.cited_by_count ≠ PyVal.int 36)

/-- A clean table row with key "A" and a DOI shared with `dupRowB`. -/
def dupRowA : PaperRow where
  openalex_id := some "A"
  doi := some "10.1/x"
  title := some "t1"
  cited_by_count := some 0
  countries_count := some 0
  institutions_count := some 0
  citation_percentile := Option.none
  primary_topic_score := Option.none
  fwci := Option.none

/-- A second clean row, distinct key, same DOI. -/
def dupRowB : PaperRow :=
  { dupRowA with openalex_id := some "B", title := some "t2" }

/-- A table whose only data-quality finding is one duplicated DOI. -/
def tDup : List PaperRow := [dupRowA, dupRowB]

/-- A nested `field` sub-object. -/
def fieldD : PyDict := PyDict.cons "display_name" (PyVal.str "CS") PyDict.nil

/-- A nested `domain` sub-object. -/
def domD : PyDict := PyDict.cons "display_name" (PyVal.str "Science") PyDict.nil

/-- A `primary_topic` sub-object with `field` and `domain` but no
`subfield`. -/
def ptA : PyDict :=
  PyDict.cons "display_name" (PyVal.str "Topic")
    (PyDict.cons "field" (PyVal.dict fieldD)
      (PyDict.cons "domain" (PyVal.dict domD) PyDict.nil))

/-- A `primary_topic` sub-object with the same `field` and `domain` as
`ptA` but with a `subfield` present. -/
def ptB : PyDict :=
  PyDict.cons "display_name" (PyVal.str "Topic2")
    (PyDict.cons "subfield"
      (PyVal.dict (PyDict.cons "display_name" (PyVal.str "AI") PyDict.nil))
      (PyDict.cons "field" (PyVal.dict fieldD)
        (PyDict.cons "domain" (PyVal.dict domD) PyDict.nil)))

/-- A raw record carrying `ptA`. -/
def paperA : PyDict :=
  PyDict.cons "id" (PyVal.str "W3") (PyDict.cons "primary_topic" (PyVal.dict ptA) PyDict.nil)

/-- A raw record carrying `ptB`. -/
def paperB : PyDict :=
  PyDict.cons "id" (PyVal.str "W4") (PyDict.cons "primary_topic" (PyVal.dict ptB) PyDict.nil)

/-- The tuple produced for `paperA`. -/
def tupleA : ProcessedPaper :=
  { bareTuple "W3" with
    primary_topic_name := PyVal.str "Topic"
    field_name := PyVal.str "CS"
    domain_name := PyVal.str "Science" }

/-- The tuple produced for `paperB`. -/
def tupleB : ProcessedPaper :=
  { bareTuple "W4" with
    primary_topic_name := PyVal.str "Topic2"
    subfield_name := PyVal.str "AI"
    field_name := PyVal.str "CS"
    domain_name := PyVal.str "Science" }

/-- A raw record with both an `id` and a `title`. -/
def titleRecord : PyDict :=
  PyDict.cons "id" (PyVal.str "W2") (PyDict.cons "title" (PyVal.str "Hello") PyDict.nil)

/-- The tuple produced for `titleRecord`. -/
def titleTuple : ProcessedPaper :=
  { bareTuple "W2" with title := PyVal.str "Hello" }

/-- A run environment whose fetch returns zero records. -/
def zeroFetchEnv : RunEnv where
  fetched := Except.ok []
  setupOk := true
  connOk := true
  rowOk := fun _ => true
  now := 0
  batchSize := 100
  tableExistsForTests := true
  totalCount := Except.ok 0
  checks := outcomesOfTable []

/-! ## Helper lemmas -/

/-- Inversion for a successful `Except` bind. -/
theorem bind_ok_iff {α β : Type} (e : Except Unit α) (f : α → Except Unit β) (b : β) :
    (e >>= f) = Except.ok b ↔ ∃ a, e = Except.ok a ∧ f a = Except.ok b := by
  cases e <;> simp [Bind.bind, Except.bind]

/-- Inversion for a successful `pure`. -/
theorem pure_ok_iff {α : Type} (a b : α) :
    (pure a : Except Unit α) = Except.ok b ↔ a = b := by
  simp [pure, Except.pure]

/-! ## Claim theorems -/

/-- C1: upserting the same processed paper tuple twice (ON CONFLICT keyed on
`openalex_id`) leaves exactly one row for that external id; the second write
overwrites all non-key fields and sets `updated_at` to the second write's
timestamp, while `created_at` keeps its value from the first insert.
(Stated for two tuples sharing the key; the claim is the instance
`p₁ = p₂`.) -/
theorem upsert_same_key_twice (p₁ p₂ : ProcessedPaper) (n₁ n₂ : Nat) (t : List DbRow)
    (hk : p₂.openalex_id = p₁.openalex_id)
    (habs : ∀ r ∈ t, rowKey r ≠ p₁.openalex_id) :
    ((upsertRow n₂ (upsertRow n₁ t p₁) p₂).filter
        (fun r => decide (rowKey r = p₁.openalex_id))).length = 1
    ∧ ∀ r ∈ upsertRow n₂ (upsertRow n₁ t p₁) p₂,
        rowKey r = p₁.openalex_id →
        r.payload = p₂ ∧ r.created_at = n₁ ∧ r.updated_at = n₂ := by
  have h1 : upsertRow n₁ t p₁ = t ++ [⟨p₁, n₁, n₁⟩] := by
    unfold upsertRow
    rw [if_neg]
    intro ⟨r, hr, hkey⟩
    exact habs r hr hkey
  have h2 : upsertRow n₂ (t ++ [⟨p₁, n₁, n₁⟩]) p₂ = t ++ [⟨p₂, n₁, n₂⟩] := by
    unfold upsertRow
    rw [if_pos ⟨⟨p₁, n₁, n₁⟩, by simp, by simp [rowKey, hk]⟩]
    rw [List.map_append]
    congr 1
    · conv_rhs => rw [show t = t.map id from (List.map_id t).symm]
      apply List.map_congr_left
      intro r hr
      rw [if_neg]
      · rfl
      · rw [hk]; exact habs r hr
    · simp [rowKey, hk]
  rw [h1, h2]
  constructor
  · rw [List.filter_append]
    have ht : t.filter (fun r => decide (rowKey r = p₁.openalex_id)) = [] := by
      apply List.filter_eq_nil_iff.mpr
      intro r hr
      simp only [decide_eq_true_eq]
      exact habs r hr
    rw [ht]
    simp [rowKey, hk]
  · intro r hr hkey
    rcases List.mem_append.mp hr with h | h
    · exact absurd hkey (habs r h)
    · rcases List.mem_singleton.mp h with rfl
      exact ⟨rfl, rfl, rfl⟩

/-- C1 witness: the double upsert of a concrete tuple into the empty table. -/
theorem upsert_same_key_twice_witness :
    ((upsertRow 2 (upsertRow 1 [] (bareTuple "W1")) (bareTuple "W1")).filter
        (fun r => decide (rowKey r = (bareTuple "W1").openalex_id))).length = 1
    ∧ ∀ r ∈ upsertRow 2 (upsertRow 1 [] (bareTuple "W1")) (bareTuple "W1"),
        rowKey r = (bareTuple "W1").openalex_id →
        r.payload = bareTuple "W1" ∧ r.created_at = 1 ∧ r.updated_at = 2 :=
  upsert_same_key_twice (bareTuple "W1") (bareTuple "W1") 1 2 [] rfl
    (fun r hr => absurd hr (List.not_mem_nil r))

/-- One processed chunk contributes exactly its store-accepted rows to
`total_inserted`, whether the whole-chunk upsert succeeded or the chunk
fell back to per-row retries. -/
theorem process_chunk_snd (ok : ProcessedPaper → Bool) (now : Nat)
    (acc : List DbRow × Nat) (chunk : List ProcessedPaper) :
    (process_chunk ok now acc chunk).2 = acc.2 + (chunk.filter ok).length := by
  unfold process_chunk
  split
  · next h =>
    simp only
    rw [List.filter_eq_self.mpr (fun a ha => List.all_eq_true.mp h a ha)]
  · rfl

/-- The chunk loop accumulates the per-chunk counts. -/
theorem foldl_chunks_snd (ok : ProcessedPaper → Bool) (now : Nat) :
    ∀ (chunks : List (List ProcessedPaper)) (t : List DbRow) (n : Nat),
      (chunks.foldl (process_chunk ok now) (t, n)).2
        = n + (chunks.map fun c => (c.filter ok).length).sum := by
  intro chunks
  induction chunks with
  | nil => intro t n; simp
  | cons c cs ih =>
    intro t n
    rw [List.foldl_cons, List.map_cons, List.sum_cons]
    rw [ih (process_chunk ok now (t, n) c).1 (process_chunk ok now (t, n) c).2]
    rw [process_chunk_snd]
    omega

/-- Unfolding `chunksOf` on a non-empty list. -/
theorem chunksOf_eq_cons {α : Type} (bs : Nat) (hbs : 0 < bs) (l : List α) (hl : l ≠ []) :
    chunksOf bs l = l.take bs :: chunksOf bs (l.drop bs) := by
  cases bs with
  | zero => omega
  | succ b =>
    cases l with
    | nil => exact absurd rfl hl
    | cons x xs => simp [chunksOf]

/-- Summing a filtered length over the chunks of a list gives the filtered
length of the whole list. -/
theorem chunksOf_filter_sum {α : Type} (p : α → Bool) (bs : Nat) (hbs : 0 < bs) :
    ∀ l : List α, ((chunksOf bs l).map fun c => (c.filter p).length).sum
      = (l.filter p).length := by
  have H : ∀ (n : Nat) (l : List α), l.length = n →
      ((chunksOf bs l).map fun c => (c.filter p).length).sum = (l.filter p).length := by
    intro n
    induction n using Nat.strong_induction_on with
    | _ n ih =>
      intro l hl
      subst hl
      cases l with
      | nil => simp [chunksOf]
      | cons x xs =>
        rw [chunksOf_eq_cons bs hbs (x :: xs) (by simp), List.map_cons, List.sum_cons]
        rw [ih (((x :: xs).drop bs).length) (by simp [List.length_drop]; omega) _ rfl]
        rw [← List.length_append, ← List.filter_append, List.take_append_drop]
  intro l
  exact H l.length l rfl

/-- `total_inserted` equals the number of store-accepted processed rows. -/
theorem insert_batches_snd (ok : ProcessedPaper → Bool) (now bs : Nat) (hbs : 0 < bs)
    (t : List DbRow) (pp : List ProcessedPaper) :
    (insert_batches ok now bs t pp).2 = (pp.filter ok).length := by
  unfold insert_batches
  rw [foldl_chunks_snd, chunksOf_filter_sum ok bs hbs]
  omega

/-- C2: a failed whole-chunk upsert is rolled back and retried row by row,
each row in its own transaction; rows that fail individually are excluded
from the returned total and processing continues, so the total equals the
number of insertable rows.  In particular 150 processed papers with
`batch_size = 100` and exactly one un-insertable row in the first chunk
(the rest insertable) give chunks of 100 and 50 and a returned total
of 149. -/
theorem chunk_fallback_counts :
    (∀ (ok : ProcessedPaper → Bool) (now bs : Nat) (t : List DbRow)
        (pp : List ProcessedPaper), 0 < bs →
        (insert_batches ok now bs t pp).2 = (pp.filter ok).length)
    ∧ ∀ (ok : ProcessedPaper → Bool) (now : Nat) (t : List DbRow)
        (pp : List ProcessedPaper),
        pp.length = 150 →
        ((pp.take 100).filter (fun p => !ok p)).length = 1 →
        (pp.drop 100).all ok = true →
        (chunksOf 100 pp).map List.length = [100, 50]
        ∧ (insert_batches ok now 100 t pp).2 = 149 := by
  refine ⟨fun ok now bs t pp hbs => insert_batches_snd ok now bs hbs t pp, ?_⟩
  intro ok now t pp hlen hbad hrest
  have hne : pp ≠ [] := by
    intro h; rw [h] at hlen; simp at hlen
  have hd : (pp.drop 100).length = 50 := by
    rw [List.length_drop, hlen]
  have hdne : pp.drop 100 ≠ [] := by
    intro h; rw [h] at hd; simp at hd
  have hdd : (pp.drop 100).drop 100 = [] := by
    have : ((pp.drop 100).drop 100).length = 0 := by
      rw [List.length_drop, hd]
    exact List.eq_nil_of_length_eq_zero this
  have hchunks : chunksOf 100 pp = [pp.take 100, (pp.drop 100).take 100] := by
    rw [chunksOf_eq_cons 100 (by omega) pp hne,
        chunksOf_eq_cons 100 (by omega) _ hdne, hdd]
    simp [chunksOf]
  have htk : (pp.drop 100).take 100 = pp.drop 100 := List.take_of_length_le (by omega)
  constructor
  · rw [hchunks]
    simp [List.length_take, hlen, htk, hd]
  · rw [insert_batches_snd ok now 100 (by omega) t pp]
    have hsplit : (pp.filter ok).length
        = ((pp.take 100).filter ok).length + ((pp.drop 100).filter ok).length := by
      conv_lhs => rw [← List.take_append_drop 100 pp]
      rw [List.filter_append, List.length_append]
    have h1 : ((pp.take 100).filter ok).length = 99 := by
      have := List.length_eq_length_filter_add (l := pp.take 100) ok
      rw [List.length_take, hlen] at this
      have hb : ((pp.take 100).filter (!ok ·)).length = 1 := hbad
      omega
    have h2 : ((pp.drop 100).filter ok).length = 50 := by
      rw [List.filter_eq_self.mpr (fun a ha => List.all_eq_true.mp hrest a ha), hd]
    omega

set_option maxRecDepth 10000 in
/-- C2 witness: 150 concrete tuples, store acceptance failing exactly on the
tuple at position 36 of the first chunk. -/
theorem chunk_fallback_counts_witness :
    samplePapers.length = 150
    ∧ ((samplePapers.take 100).filter (fun p => !sampleOk p)).length = 1
    ∧ (samplePapers.drop 100).all sampleOk = true
    ∧ (chunksOf 100 samplePapers).map List.length = [100, 50]
    ∧ (insert_batches sampleOk 0 100 [] samplePapers).2 = 149 := by
  have h1 : samplePapers.length = 150 := by decide
  have h2 : ((samplePapers.take 100).filter (fun p => !sampleOk p)).length = 1 := by decide
  have h3 : (samplePapers.drop 100).all sampleOk = true := by decide
  have h4 := chunk_fallback_counts.2 sampleOk 0 [] samplePapers h1 h2 h3
  exact ⟨h1, h2, h3, h4.1, h4.2⟩

/-- The returned total never exceeds the number of processed tuples,
whatever the batch size. -/
theorem insert_batches_le (ok : ProcessedPaper → Bool) (now bs : Nat)
    (t : List DbRow) (pp : List ProcessedPaper) :
    (insert_batches ok now bs t pp).2 ≤ pp.length := by
  cases bs with
  | zero =>
    cases pp with
    | nil => simp [insert_batches, chunksOf]
    | cons x xs => simp [insert_batches, chunksOf]
  | succ b =>
    rw [insert_batches_snd ok now (b + 1) (Nat.succ_pos b) t pp]
    exact List.length_filter_le _ _

/-- C3: a raw record whose processing raises, or whose primary identifier is
empty (falsy) after prefix stripping, is skipped and counted: it contributes
nothing to the processed output, the skip count grows by one, and the loop
continues with the remaining records (`processAll` of the tail; the loop is
total, so normalization never aborts the batch). -/
theorem processAll_skips (r : PyDict) (rest : List PyDict)
    (h : (∃ e, process_paper r = Except.error e)
        ∨ ∃ t, process_paper r = Except.ok t ∧ pyTruthy t.openalex_id = false) :
    (processAll (r :: rest)).1 = (processAll rest).1
    ∧ (processAll (r :: rest)).2 = (processAll rest).2 + 1 := by
  rcases h with ⟨e, he⟩ | ⟨t, ht, htr⟩
  · simp [processAll, he]
  · simp [processAll, ht, htr]

/-- C3 witness: the empty raw record has an empty identifier and is
skipped. -/
theorem processAll_skips_witness :
    (processAll [PyDict.nil]).1 = (processAll ([] : List PyDict)).1
    ∧ (processAll [PyDict.nil]).2 = (processAll ([] : List PyDict)).2 + 1 :=
  processAll_skips PyDict.nil [] (Or.inr ⟨bareTuple "", rfl, rfl⟩)

/-- C10: every raw record either contributes exactly one tuple to the
processed list (kept in input order, as the filterMap characterisation
shows) or increments the skip count, so processed + skipped = input length;
and the success count returned by the insertion loop never exceeds the
number of processed tuples. -/
theorem processAll_partition :
    ∀ papers : List PyDict,
      (processAll papers).1.length + (processAll papers).2 = papers.length
      ∧ (processAll papers).1 = papers.filterMap (fun r =>
          match process_paper r with
          | Except.ok t => if pyTruthy t.openalex_id then some t else Option.none
          | Except.error _ => Option.none)
      ∧ ∀ (ok : ProcessedPaper → Bool) (now bs : Nat) (t : List DbRow),
          (insert_batches ok now bs t (processAll papers).1).2
            ≤ (processAll papers).1.length := by
  intro papers
  refine ⟨?_, ?_, fun ok now bs t => insert_batches_le ok now bs t _⟩
  · induction papers with
    | nil => rfl
    | cons r rest ih =>
      simp only [processAll]
      cases hp : process_paper r with
      | ok t =>
        by_cases htr : pyTruthy t.openalex_id
        · simp [htr]; omega
        · simp [htr]; omega
      | error e => simp; omega
  · induction papers with
    | nil => rfl
    | cons r rest ih =>
      simp only [processAll, List.filterMap_cons]
      cases hp : process_paper r with
      | ok t =>
        by_cases htr : pyTruthy t.openalex_id
        · simp [htr, ih]
        · simp [htr, ih]
      | error e => simp [ih]

/-- C4 (code bug): on a table whose only finding is one duplicated DOI, the
DOI-duplication count is 1 and is reported (last entry of the pipeline
validator's report, not passed, count 1); the pipeline variant
`run_data_quality_tests` treats it as informational and returns 0, but the
standalone `PapersDataValidator` (`data_quality_tests.py`) lets its stateful
`run_test` count the failed DOI test in `failed_tests`, so `run_all_tests`
returns 1 - contradicting the claim and the code's own "informational"
comments. -/
theorem doi_check_divergence :
    dup_doi_count tDup = 1
    ∧ (run_data_quality_tests true (Except.ok 2) (outcomesOfTable tDup)).map
        (fun pr => pr.1.getLast?)
        = Except.ok (some { passed := false, count := some 1, isError := false })
    ∧ (run_data_quality_tests true (Except.ok 2) (outcomesOfTable tDup)).map Prod.snd
        = Except.ok 0
    ∧ run_all_tests true true (outcomesOfTable tDup) = 1 := by
  refine ⟨rfl, rfl, rfl, rfl⟩

/-- `condGet` on the empty dict default is the pure default. -/
theorem condGet_nil_dict (k : String) (d : PyVal) :
    condGet (PyVal.dict PyDict.nil) k d = pure d := by
  simp [condGet, pyTruthy, PyDict.isNil]

/-- `condGet` on a truthy dict is a pure lookup with default. -/
theorem condGet_truthy_dict (pt : PyDict) (k : String) (d : PyVal)
    (hpt : pyTruthy (PyVal.dict pt) = true) :
    condGet (PyVal.dict pt) k d = pure (pt.get k d) := by
  simp [condGet, hpt, pyMethodGet]
  rfl

/-- C5 (amended): for a record whose primary identifier field is a non-empty
string `s`, a successful `process_paper` yields `external_id` equal to `s`
with ALL occurrences of the URL prefix removed (Python `str.replace`), which
coincides with stripping a leading prefix whenever the prefix occurs only at
the start, or not at all. -/
theorem process_paper_external_id (paper : PyDict) (s : String) (t : ProcessedPaper)
    (hid : paper.lookup "id" = some (PyVal.str s)) (_hs : s ≠ "")
    (h : process_paper paper = Except.ok t) :
    t.openalex_id = PyVal.str (pyReplaceEmpty s openalexUrl) := by
  have hget : paper.get "id" (PyVal.str "") = PyVal.str s := by simp [PyDict.get, hid]
  simp only [process_paper, hget, bind_ok_iff, pure_ok_iff, asStr] at h
  obtain ⟨a, ha, h⟩ := h
  obtain ⟨d, hd, h⟩ := h
  obtain ⟨ptn, hptn, h⟩ := h
  obtain ⟨pts, hpts, h⟩ := h
  obtain ⟨sf, hsf, h⟩ := h
  obtain ⟨sfn, hsfn, h⟩ := h
  obtain ⟨f, hf, h⟩ := h
  obtain ⟨fn, hfn, h⟩ := h
  obtain ⟨dm, hdm, h⟩ := h
  obtain ⟨dmn, hdmn, h⟩ := h
  obtain ⟨ioa, hioa, h⟩ := h
  obtain ⟨oas, hoas, h⟩ := h
  obtain ⟨cp, hcp, h⟩ := h
  obtain ⟨t1p, ht1p, h⟩ := h
  obtain ⟨t10p, ht10p, h⟩ := h
  obtain ⟨mn, hmn, h⟩ := h
  obtain ⟨mx, hmx, h⟩ := h
  subst h
  cases ha
  rfl

/-- C5 witness: an identifier carrying the prefix once, at the start. -/
theorem process_paper_external_id_witness :
    process_paper (PyDict.cons "id" (PyVal.str "https://openalex.org/W1") PyDict.nil)
      = Except.ok (bareTuple "W1")
    ∧ (bareTuple "W1").openalex_id
        = PyVal.str (pyReplaceEmpty "https://openalex.org/W1" openalexUrl) :=
  ⟨rfl, process_paper_external_id
    (PyDict.cons "id" (PyVal.str "https://openalex.org/W1") PyDict.nil)
    "https://openalex.org/W1" (bareTuple "W1") rfl (by decide) rfl⟩

/-- C5 counterexample: for the identifier "xhttps://openalex.org/y" the code
removes an interior occurrence of the prefix (Python `str.replace` removes
every occurrence), producing "xy", while stripping the identifier of its
known URL prefix would leave it unchanged because it does not start with the
prefix. -/
theorem strip_counterexample :
    (process_paper (PyDict.cons "id" (PyVal.str "xhttps://openalex.org/y") PyDict.nil)).map
        ProcessedPaper.openalex_id = Except.ok (PyVal.str "xy")
    ∧ specStripLeadingUrl openalexUrl "xhttps://openalex.org/y" = "xhttps://openalex.org/y"
    ∧ ("xy" : String) ≠ "xhttps://openalex.org/y" :=
  ⟨rfl, rfl, by decide⟩

/-- C7 (amended): the title of a successfully processed record is the primary
title field when truthy, otherwise the display-name field; it is guaranteed
non-empty (truthy) only when at least one of the two fields is truthy - a
record with neither yields an empty title and is NOT rejected. -/
theorem process_paper_title (paper : PyDict) (t : ProcessedPaper)
    (h : process_paper paper = Except.ok t) :
    t.title = pyOr (paper.get "title" (PyVal.str "")) (paper.get "display_name" (PyVal.str ""))
    ∧ (pyTruthy (paper.get "title" (PyVal.str "")) = true
        ∨ pyTruthy (paper.get "display_name" (PyVal.str "")) = true →
        pyTruthy t.title = true) := by
  simp only [process_paper, bind_ok_iff, pure_ok_iff] at h
  obtain ⟨a, ha, h⟩ := h
  obtain ⟨d, hd, h⟩ := h
  obtain ⟨ptn, hptn, h⟩ := h
  obtain ⟨pts, hpts, h⟩ := h
  obtain ⟨sf, hsf, h⟩ := h
  obtain ⟨sfn, hsfn, h⟩ := h
  obtain ⟨f, hf, h⟩ := h
  obtain ⟨fn, hfn, h⟩ := h
  obtain ⟨dm, hdm, h⟩ := h
  obtain ⟨dmn, hdmn, h⟩ := h
  obtain ⟨ioa, hioa, h⟩ := h
  obtain ⟨oas, hoas, h⟩ := h
  obtain ⟨cp, hcp, h⟩ := h
  obtain ⟨t1p, ht1p, h⟩ := h
  obtain ⟨t10p, ht10p, h⟩ := h
  obtain ⟨mn, hmn, h⟩ := h
  obtain ⟨mx, hmx, h⟩ := h
  subst h
  refine ⟨rfl, fun hcase => ?_⟩
  simp only [pyOr]
  by_cases ht : pyTruthy (paper.get "title" (PyVal.str "")) = true
  · simp [ht]
  · rw [if_neg (by simp [ht])]
    rcases hcase with h1 | h2
    · exact absurd h1 ht
    · exact h2

/-- C7 witness: a record with a real title keeps it. -/
theorem process_paper_title_witness :
    process_paper titleRecord = Except.ok titleTuple
    ∧ titleTuple.title
        = pyOr (titleRecord.get "title" (PyVal.str ""))
            (titleRecord.get "display_name" (PyVal.str ""))
    ∧ pyTruthy titleTuple.title = true :=
  ⟨rfl, (process_paper_title titleRecord titleTuple rfl).1,
    (process_paper_title titleRecord titleTuple rfl).2 (Or.inl rfl)⟩

/-- C7 counterexample: a record with a non-empty identifier but neither a
title nor a display name is processed successfully (and kept, since its
identifier is truthy), yet its title is the empty string. -/
theorem nonempty_title_counterexample :
    (process_paper (PyDict.cons "id" (PyVal.str "W1") PyDict.nil)).map
        ProcessedPaper.openalex_id = Except.ok (PyVal.str "W1")
    ∧ (process_paper (PyDict.cons "id" (PyVal.str "W1") PyDict.nil)).map
        ProcessedPaper.title = Except.ok (PyVal.str "")
    ∧ pyTruthy (PyVal.str "W1") = true
    ∧ pyTruthy (PyVal.str "") = false :=
  ⟨rfl, rfl, rfl, rfl⟩

/-- Characterisation of the five topic-derived fields of a successful
`process_paper` when `primary_topic` is a truthy dict `pt`: the name and
score are direct lookups in `pt`, and each of the three sub-object names is
determined by `condGet` applied to `pt`'s own entry alone. -/
theorem process_paper_topic_char (paper : PyDict) (t : ProcessedPaper) (pt : PyDict)
    (hget : paper.get "primary_topic" (PyVal.dict PyDict.nil) = PyVal.dict pt)
    (htr : pyTruthy (PyVal.dict pt) = true)
    (h : process_paper paper = Except.ok t) :
    t.primary_topic_name = pt.get "display_name" PyVal.null
    ∧ t.primary_topic_score = pt.get "score" PyVal.null
    ∧ condGet (pt.get "subfield" (PyVal.dict PyDict.nil)) "display_name" PyVal.null
        = Except.ok t.subfield_name
    ∧ condGet (pt.get "field" (PyVal.dict PyDict.nil)) "display_name" PyVal.null
        = Except.ok t.field_name
    ∧ condGet (pt.get "domain" (PyVal.dict PyDict.nil)) "display_name" PyVal.null
        = Except.ok t.domain_name := by
  simp only [process_paper, hget, condGet_truthy_dict pt _ _ htr, pure_bind,
    bind_ok_iff, pure_ok_iff] at h
  obtain ⟨a, ha, h⟩ := h
  obtain ⟨d, hd, h⟩ := h
  obtain ⟨sfn, hsfn, h⟩ := h
  obtain ⟨fn, hfn, h⟩ := h
  obtain ⟨dmn, hdmn, h⟩ := h
  obtain ⟨ioa, hioa, h⟩ := h
  obtain ⟨oas, hoas, h⟩ := h
  obtain ⟨cp, hcp, h⟩ := h
  obtain ⟨t1p, ht1p, h⟩ := h
  obtain ⟨t10p, ht10p, h⟩ := h
  obtain ⟨mn, hmn, h⟩ := h
  obtain ⟨mx, hmx, h⟩ := h
  subst h
  exact ⟨rfl, rfl, hsfn, hfn, hdmn⟩

/-- C6: if `primary_topic` is absent all four derived name fields and the
score are null; if it is present (a truthy dict), its `subfield`, `field`
and `domain` sub-objects are read independently - an absent sub-object
nulls only its own derived field, and each derived field is determined by
its own sub-object entry alone. -/
theorem topic_fields_independent :
    (∀ (paper : PyDict) (t : ProcessedPaper),
        paper.lookup "primary_topic" = Option.none →
        process_paper paper = Except.ok t →
        t.primary_topic_name = PyVal.null ∧ t.primary_topic_score = PyVal.null
        ∧ t.subfield_name = PyVal.null ∧ t.field_name = PyVal.null
        ∧ t.domain_name = PyVal.null)
    ∧ (∀ (paper : PyDict) (t : ProcessedPaper) (pt : PyDict),
        paper.lookup "primary_topic" = some (PyVal.dict pt) →
        pyTruthy (PyVal.dict pt) = true →
        process_paper paper = Except.ok t →
        (pt.lookup "subfield" = Option.none → t.subfield_name = PyVal.null)
        ∧ (pt.lookup "field" = Option.none → t.field_name = PyVal.null)
        ∧ (pt.lookup "domain" = Option.none → t.domain_name = PyVal.null))
    ∧ ∀ (p₁ p₂ : PyDict) (t₁ t₂ : ProcessedPaper) (pt₁ pt₂ : PyDict),
        p₁.lookup "primary_topic" = some (PyVal.dict pt₁) →
        pyTruthy (PyVal.dict pt₁) = true →
        p₂.lookup "primary_topic" = some (PyVal.dict pt₂) →
        pyTruthy (PyVal.dict pt₂) = true →
        process_paper p₁ = Except.ok t₁ →
        process_paper p₂ = Except.ok t₂ →
        (pt₁.lookup "subfield" = pt₂.lookup "subfield" →
          t₁.subfield_name = t₂.subfield_name)
        ∧ (pt₁.lookup "field" = pt₂.lookup "field" → t₁.field_name = t₂.field_name)
        ∧ (pt₁.lookup "domain" = pt₂.lookup "domain" →
          t₁.domain_name = t₂.domain_name) := by
  refine ⟨?_, ?_, ?_⟩
  · intro paper t hl h
    have hget : paper.get "primary_topic" (PyVal.dict PyDict.nil) = PyVal.dict PyDict.nil := by
      simp [PyDict.get, hl]
    simp only [process_paper, hget, condGet_nil_dict, pure_bind,
      bind_ok_iff, pure_ok_iff] at h
    obtain ⟨a, ha, h⟩ := h
    obtain ⟨d, hd, h⟩ := h
    obtain ⟨ioa, hioa, h⟩ := h
    obtain ⟨oas, hoas, h⟩ := h
    obtain ⟨cp, hcp, h⟩ := h
    obtain ⟨t1p, ht1p, h⟩ := h
    obtain ⟨t10p, ht10p, h⟩ := h
    obtain ⟨mn, hmn, h⟩ := h
    obtain ⟨mx, hmx, h⟩ := h
    subst h
    exact ⟨rfl, rfl, rfl, rfl, rfl⟩
  · intro paper t pt hl htr h
    have hget : paper.get "primary_topic" (PyVal.dict PyDict.nil) = PyVal.dict pt := by
      simp [PyDict.get, hl]
    obtain ⟨-, -, hsf, hf, hdm⟩ := process_paper_topic_char paper t pt hget htr h
    refine ⟨fun hs => ?_, fun hs => ?_, fun hs => ?_⟩
    · rw [show pt.get "subfield" (PyVal.dict PyDict.nil) = PyVal.dict PyDict.nil from by
        simp [PyDict.get, hs], condGet_nil_dict] at hsf
      exact (Except.ok.injEq _ _).mp hsf.symm
    · rw [show pt.get "field" (PyVal.dict PyDict.nil) = PyVal.dict PyDict.nil from by
        simp [PyDict.get, hs], condGet_nil_dict] at hf
      exact (Except.ok.injEq _ _).mp hf.symm
    · rw [show pt.get "domain" (PyVal.dict PyDict.nil) = PyVal.dict PyDict.nil from by
        simp [PyDict.get, hs], condGet_nil_dict] at hdm
      exact (Except.ok.injEq _ _).mp hdm.symm
  · intro p₁ p₂ t₁ t₂ pt₁ pt₂ hl₁ htr₁ hl₂ htr₂ h₁ h₂
    have hget₁ : p₁.get "primary_topic" (PyVal.dict PyDict.nil) = PyVal.dict pt₁ := by
      simp [PyDict.get, hl₁]
    have hget₂ : p₂.get "primary_topic" (PyVal.dict PyDict.nil) = PyVal.dict pt₂ := by
      simp [PyDict.get, hl₂]
    obtain ⟨-, -, hsf₁, hf₁, hdm₁⟩ := process_paper_topic_char p₁ t₁ pt₁ hget₁ htr₁ h₁
    obtain ⟨-, -, hsf₂, hf₂, hdm₂⟩ := process_paper_topic_char p₂ t₂ pt₂ hget₂ htr₂ h₂
    refine ⟨fun hs => ?_, fun hs => ?_, fun hs => ?_⟩
    · rw [show pt₁.get "subfield" (PyVal.dict PyDict.nil)
          = pt₂.get "subfield" (PyVal.dict PyDict.nil) from by
        simp [PyDict.get, hs], hsf₂] at hsf₁
      exact (Except.ok.injEq _ _).mp hsf₁.symm
    · rw [show pt₁.get "field" (PyVal.dict PyDict.nil)
          = pt₂.get "field" (PyVal.dict PyDict.nil) from by
        simp [PyDict.get, hs], hf₂] at hf₁
      exact (Except.ok.injEq _ _).mp hf₁.symm
    · rw [show pt₁.get "domain" (PyVal.dict PyDict.nil)
          = pt₂.get "domain" (PyVal.dict PyDict.nil) from by
        simp [PyDict.get, hs], hdm₂] at hdm₁
      exact (Except.ok.injEq _ _).mp hdm₁.symm

/-- C6 witness: `paperA` lacks `subfield` but keeps `field`/`domain`
derived names; `paperB` shares its `field` and `domain` entries, so the
derived names agree although the `subfield` entries differ. -/
theorem topic_fields_independent_witness :
    process_paper paperA = Except.ok tupleA
    ∧ process_paper paperB = Except.ok tupleB
    ∧ tupleA.subfield_name = PyVal.null
    ∧ tupleA.field_name = tupleB.field_name
    ∧ tupleA.domain_name = tupleB.domain_name := by
  refine ⟨rfl, rfl, ?_, ?_, ?_⟩
  · exact (topic_fields_independent.2.1 paperA tupleA ptA rfl rfl rfl).1 rfl
  · exact (topic_fields_independent.2.2 paperA paperB tupleA tupleB ptA ptB
      rfl rfl rfl rfl rfl rfl).2.1 rfl
  · exact (topic_fields_independent.2.2 paperA paperB tupleA tupleB ptA ptB
      rfl rfl rfl rfl rfl rfl).2.2 rfl

/-- The pipeline validator returns 0 iff the table exists, the un-guarded
count query succeeds, and every one of the nine non-informational checks
passes (a check whose query errors has `passed = false` and so counts as
failed); the DOI-duplication outcome does not appear on the right-hand
side. -/
theorem dqt_snd_eq_zero_iff (te : Bool) (tc : Except Unit Int) (oc : Outcomes) :
    (run_data_quality_tests te tc oc).map Prod.snd = Except.ok 0 ↔
      te = true ∧ (∃ n, tc = Except.ok n)
      ∧ (runTest oc.missingOpenalexId).passed = true
      ∧ (runTest oc.missingTitle).passed = true
      ∧ (runTest oc.negCitedBy).passed = true
      ∧ (runTest oc.negCountries).passed = true
      ∧ (runTest oc.negInstitutions).passed = true
      ∧ (runTest oc.badCitationPercentile).passed = true
      ∧ (runTest oc.badTopicScore).passed = true
      ∧ (runTest oc.negFwci).passed = true
      ∧ (runTest oc.dupOpenalexId).passed = true := by
  cases te with
  | false => simp [run_data_quality_tests, Except.map]
  | true =>
    cases tc with
    | error e => simp [run_data_quality_tests, Except.map]
    | ok n =>
      have hred : (run_data_quality_tests true (Except.ok n) oc).map Prod.snd
          = Except.ok (if ([runTest oc.missingOpenalexId, runTest oc.missingTitle,
              runTest oc.negCitedBy, runTest oc.negCountries, runTest oc.negInstitutions,
              runTest oc.badCitationPercentile, runTest oc.badTopicScore,
              runTest oc.negFwci, runTest oc.dupOpenalexId].filter
                fun r => !r.passed).length = 0 then 0 else 1) := rfl
      rw [hred]
      simp only [Except.ok.injEq]
      have key : (([runTest oc.missingOpenalexId, runTest oc.missingTitle,
          runTest oc.negCitedBy, runTest oc.negCountries, runTest oc.negInstitutions,
          runTest oc.badCitationPercentile, runTest oc.badTopicScore,
          runTest oc.negFwci, runTest oc.dupOpenalexId].filter
            fun r => !r.passed).length = 0
          ↔ ((runTest oc.missingOpenalexId).passed = true
            ∧ (runTest oc.missingTitle).passed = true
            ∧ (runTest oc.negCitedBy).passed = true
            ∧ (runTest oc.negCountries).passed = true
            ∧ (runTest oc.negInstitutions).passed = true
            ∧ (runTest oc.badCitationPercentile).passed = true
            ∧ (runTest oc.badTopicScore).passed = true
            ∧ (runTest oc.negFwci).passed = true
            ∧ (runTest oc.dupOpenalexId).passed = true)) := by
        rw [List.length_eq_zero, List.filter_eq_nil_iff]
        simp [List.forall_mem_cons]
      by_cases hC : (([runTest oc.missingOpenalexId, runTest oc.missingTitle,
          runTest oc.negCitedBy, runTest oc.negCountries, runTest oc.negInstitutions,
          runTest oc.badCitationPercentile, runTest oc.badTopicScore,
          runTest oc.negFwci, runTest oc.dupOpenalexId].filter
            fun r => !r.passed).length = 0)
      · rw [if_pos hC]
        have hk := key.mp hC
        constructor
        · intro _
          exact ⟨by trivial, ⟨n, by trivial⟩, hk.1, hk.2.1, hk.2.2.1, hk.2.2.2.1,
            hk.2.2.2.2.1, hk.2.2.2.2.2.1, hk.2.2.2.2.2.2.1, hk.2.2.2.2.2.2.2.1,
            hk.2.2.2.2.2.2.2.2⟩
        · intro _
          rfl
      · rw [if_neg hC]
        constructor
        · intro h; exact absurd h (by decide)
        · intro h
          exact absurd (key.mpr ⟨h.2.2.1, h.2.2.2.1, h.2.2.2.2.1, h.2.2.2.2.2.1,
            h.2.2.2.2.2.2.1, h.2.2.2.2.2.2.2.1, h.2.2.2.2.2.2.2.2.1,
            h.2.2.2.2.2.2.2.2.2.1, h.2.2.2.2.2.2.2.2.2.2⟩) hC

/-- C8: the pipeline exit status is 0 iff the run succeeds - a fetch error
or setup/connection failure yields 1; a fetch of zero records yields 0;
otherwise with `skip_tests` the status is 0 without running the validator,
and with tests the status is 0 iff the validator run returned 0, which
holds iff every non-informational check passed (an erroring check counting
as failed).  The second component characterises exactly when the validator
is invoked. -/
theorem run_exit_characterisation :
    ∀ (env : RunEnv) (st : Bool) (tb : List DbRow),
      ((pipelineRun env st tb).exitCode = 0 ↔
        match env.fetched with
        | Except.error _ => False
        | Except.ok [] => True
        | Except.ok (_ :: _) =>
          env.setupOk = true ∧ env.connOk = true
          ∧ (st = true ∨
              (env.tableExistsForTests = true ∧ (∃ n, env.totalCount = Except.ok n)
              ∧ (runTest env.checks.missingOpenalexId).passed = true
              ∧ (runTest env.checks.missingTitle).passed = true
              ∧ (runTest env.checks.negCitedBy).passed = true
              ∧ (runTest env.checks.negCountries).passed = true
              ∧ (runTest env.checks.negInstitutions).passed = true
              ∧ (runTest env.checks.badCitationPercentile).passed = true
              ∧ (runTest env.checks.badTopicScore).passed = true
              ∧ (runTest env.checks.negFwci).passed = true
              ∧ (runTest env.checks.dupOpenalexId).passed = true)))
      ∧ ((pipelineRun env st tb).validatorRan = true ↔
          (∃ r rs, env.fetched = Except.ok (r :: rs))
          ∧ env.setupOk = true ∧ env.connOk = true ∧ st = false) := by
  intro env st tb
  obtain ⟨f, so, co, ro, now, bs, tet, tc, oc⟩ := env
  cases f with
  | error e => simp [pipelineRun]
  | ok l =>
    cases l with
    | nil => simp [pipelineRun]
    | cons r rs =>
      cases so with
      | false => simp [pipelineRun]
      | true =>
        cases co with
        | false => simp [pipelineRun]
        | true =>
          cases st with
          | true => simp [pipelineRun]
          | false =>
            have hiff := dqt_snd_eq_zero_iff tet tc oc
            cases hdq : run_data_quality_tests tet tc oc with
            | error e =>
              rw [hdq] at hiff
              have hrun : pipelineRun
                  ⟨Except.ok (r :: rs), true, true, ro, now, bs, tet, tc, oc⟩ false tb
                  = { exitCode := 1,
                      table := (insert_batches ro now bs tb (processAll (r :: rs)).1).1,
                      validatorRan := true, dbAccessed := true } := by
                simp [pipelineRun, hdq]
              rw [hrun]
              refine ⟨?_, by simp⟩
              constructor
              · intro h
                simp at h
              · rintro ⟨-, -, h1 | h2⟩
                · simp at h1
                · have hz := hiff.mpr h2
                  simp [Except.map] at hz
            | ok p =>
              rw [hdq] at hiff
              simp only [Except.map, Except.ok.injEq] at hiff
              have hrun : pipelineRun
                  ⟨Except.ok (r :: rs), true, true, ro, now, bs, tet, tc, oc⟩ false tb
                  = { exitCode := p.2,
                      table := (insert_batches ro now bs tb (processAll (r :: rs)).1).1,
                      validatorRan := true, dbAccessed := true } := by
                simp [pipelineRun, hdq]
              rw [hrun]
              refine ⟨?_, by simp⟩
              constructor
              · intro h
                simp only at h
                exact ⟨rfl, rfl, Or.inr (hiff.mp h)⟩
              · rintro ⟨-, -, h1 | h2⟩
                · simp at h1
                · simpa using hiff.mpr h2

/-- C9: when fetching yields zero records the run returns exit status 0
immediately: no database access happens (no table creation, no writes), the
validator is not invoked, and the table contents are returned unchanged. -/
theorem zero_fetch_short_circuit (env : RunEnv) (st : Bool) (tb : List DbRow)
    (h : env.fetched = Except.ok []) :
    pipelineRun env st tb
      = { exitCode := 0, table := tb, validatorRan := false, dbAccessed := false } := by
  unfold pipelineRun
  rw [h]

/-- C9 witness: a concrete environment with an empty fetch. -/
theorem zero_fetch_short_circuit_witness :
    pipelineRun zeroFetchEnv false []
      = { exitCode := 0, table := [], validatorRan := false, dbAccessed := false } :=
  zero_fetch_short_circuit zeroFetchEnv false [] rfl
